import Mathlib

set_option linter.unusedVariables false

/-!
Verification development for the nerves_hub_client library
(src/nerves_hub_client/client.py and src/nerves_hub_client/exceptions.py).

Byte strings are modelled as `List Nat` (each element a byte value).
External collaborators (the HTTP transport, TLS, PEM parsing, JSON
parsing, the filesystem) are abstracted: the transport is modelled by
passing the HTTP response into each operation, temporary files are
modelled by the bytes written to them, and the PEM loaders of the
cryptography package are modelled as wrappers that keep the input bytes.
-/

namespace NervesHub

/-! ## Base64 (Python base64.b64encode and base64.b64decode with validate=True) -/

/-- Value of a standard-alphabet base64 character (RFC 4648):
A-Z, a-z, 0-9, plus, slash; `none` for any other byte, including the
pad byte 61. -/
def b64val (c : Nat) : Option Nat :=
  if 65 ≤ c ∧ c ≤ 90 then some (c - 65)
  else if 97 ≤ c ∧ c ≤ 122 then some (c - 97 + 26)
  else if 48 ≤ c ∧ c ≤ 57 then some (c - 48 + 52)
  else if c = 43 then some 62
  else if c = 47 then some 63
  else none

/-- Standard-alphabet base64 character for a 6-bit value. -/
def b64chr (v : Nat) : Nat :=
  if v < 26 then 65 + v
  else if v < 52 then 97 + (v - 26)
  else if v < 62 then 48 + (v - 52)
  else if v = 62 then 43
  else 47

/-- `base64.b64encode`: groups of three bytes become four characters,
with pad characters (byte 61) completing the final group. -/
def b64encode : List Nat → List Nat
  | [] => []
  | [a] => [b64chr (a / 4), b64chr (a % 4 * 16), 61, 61]
  | [a, b] => [b64chr (a / 4), b64chr (a % 4 * 16 + b / 16), b64chr (b % 16 * 4), 61]
  | a :: b :: c :: rest =>
      b64chr (a / 4) :: b64chr (a % 4 * 16 + b / 16) :: b64chr (b % 16 * 4 + c / 64)
        :: b64chr (c % 64) :: b64encode rest

/-- `base64.b64decode(s, validate=True)`: the input must consist of
whole four-character groups over the standard alphabet, with at most
two pad bytes (61) and only at the very end; anything else is a
decode error (`none`). Discarded low bits of the final group are
ignored, as in CPython. -/
def b64decodeStrict : List Nat → Option (List Nat)
  | [] => some []
  | c1 :: c2 :: c3 :: c4 :: rest =>
      if c4 = 61 then
        match rest with
        | _ :: _ => none
        | [] =>
            if c3 = 61 then
              match b64val c1, b64val c2 with
              | some v1, some v2 => some [v1 * 4 + v2 / 16]
              | _, _ => none
            else
              match b64val c1, b64val c2, b64val c3 with
              | some v1, some v2, some v3 =>
                  some [v1 * 4 + v2 / 16, v2 % 16 * 16 + v3 / 4]
              | _, _, _ => none
      else
        match b64val c1, b64val c2, b64val c3, b64val c4, b64decodeStrict rest with
        | some v1, some v2, some v3, some v4, some bs =>
            some ((v1 * 4 + v2 / 16) :: (v2 % 16 * 16 + v3 / 4) :: (v3 % 4 * 64 + v4) :: bs)
        | _, _, _, _, _ => none
  | _ => none

/-! ## exceptions.py -/

/-- `NervesHubAPIError` (exceptions.py lines 4-18): carries the reason
string and the HTTP status code that led to it. In Python it is
declared as a direct subclass of `BaseException`; the class hierarchy
is modelled separately below by `PyClass`. -/
structure NervesHubAPIError where
  reason : String
  statusCode : Nat
  deriving DecidableEq, Repr

/-- The fragment of the Python exception class hierarchy relevant to
this library. -/
inductive PyClass where
  | baseException
  | pyException
  | nervesHubAPIError
  deriving DecidableEq, Repr

/-- Direct base class: `Exception` subclasses `BaseException` (Python
builtin), and `NervesHubAPIError` subclasses `BaseException` directly
(exceptions.py line 4). -/
def pyParent : PyClass → Option PyClass
  | .baseException => none
  | .pyException => some .baseException
  | .nervesHubAPIError => some .baseException

/-- The class and its ancestors; the modelled hierarchy has depth at
most three. -/
def classAncestors (c : PyClass) : List PyClass :=
  match pyParent c with
  | none => [c]
  | some p =>
      match pyParent p with
      | none => [c, p]
      | some q => [c, p, q]

/-- An `except H:` clause catches a raised exception of class `r` when
`H` is `r` or an ancestor of `r`. -/
def exceptClauseCatches (handler raised : PyClass) : Bool :=
  (classAncestors raised).contains handler

/-! ## client.py: construction -/

/-- Errors that construction can raise. `attributeError` models the
crash from calling a method on Python `None`; `keyError` models a
missing required environment variable; `configurationError` models the
ConfigurationError of the specification's error taxonomy (the code
never raises it). -/
inductive PyError where
  | attributeError
  | keyError
  | configurationError
  deriving DecidableEq, Repr

/-- `NERVES_HUB_BASE_URL_DEFAULT` (client.py line 17). -/
def NERVES_HUB_BASE_URL_DEFAULT : String := "https://api.nerves-hub.org"

/-- Modelled from the spec: the bundled default CA certificate resource
(nerveshub_ca_certs.pem under nerves_hub_client.resources) is not part
of the sources under src; the spec treats it as an opaque trust-anchor
byte string shipped with the client, so it is modelled as an opaque
nonempty byte constant. -/
def bundledCACert : List Nat := [78, 72, 67, 65]

/-- A parsed X509 certificate object, as produced by
`load_pem_x509_certificate`; `publicBytes` models
`public_bytes(Encoding.PEM)`. PEM parsing itself is an external
collaborator and is modelled as keeping the byte string. -/
structure X509Certificate where
  publicBytes : List Nat
  deriving DecidableEq, Repr

/-- A parsed private key object, as produced by
`load_pem_private_key`; `privateBytes` models
`private_bytes(Encoding.PEM, PKCS8, NoEncryption)`. -/
structure PrivateKey where
  privateBytes : List Nat
  deriving DecidableEq, Repr

/-- `load_pem_x509_certificate` (external, cryptography package),
modelled as wrapping the bytes. -/
def loadPemX509Certificate (b : List Nat) : X509Certificate := ⟨b⟩

/-- `load_pem_private_key` (external, cryptography package), modelled
as wrapping the bytes. -/
def loadPemPrivateKey (b : List Nat) : PrivateKey := ⟨b⟩

/-- `NervesHubAPI._init_cert` (client.py lines 101-128): serializes the
certificate and key and writes each to a temporary file, which is
modelled by the bytes written. Python evaluates
`cert.public_bytes(...)` first, then `key.private_bytes(...)`, so a
`None` certificate or key crashes with an AttributeError in that
order. -/
def initCert : Option X509Certificate → Option PrivateKey → Except PyError (List Nat × List Nat)
  | none, _ => .error .attributeError
  | some _, none => .error .attributeError
  | some c, some k => .ok (c.publicBytes, k.privateBytes)

/-- `NervesHubAPI._init_ca_cert` (client.py lines 130-142): writes the
CA bytes to a temporary file, modelled by the bytes written. -/
def initCACert (caCert : List Nat) : List Nat := caCert

/-- The state a `NervesHubAPI` instance holds after `__init__`
(client.py lines 56-68): organization, product, the serialized client
certificate and key (the temporary files, modelled by their contents),
the base URL and the CA certificate bytes. -/
structure NervesHubAPI where
  organization : String
  product : String
  certData : List Nat
  keyData : List Nat
  baseUrl : String
  caCertData : List Nat
  deriving DecidableEq, Repr

/-- `NervesHubAPI.__init__` (client.py lines 29-68): stores
organization and product, initializes the client certificate and key,
defaults the base URL to `NERVES_HUB_BASE_URL_DEFAULT` when absent,
and, when no CA certificate is supplied, falls back to the bundled
default CA resource regardless of the base URL. -/
def init (organization product : String) (cert : Option X509Certificate)
    (key : Option PrivateKey) (baseUrl : Option String)
    (caCert : Option (List Nat)) : Except PyError NervesHubAPI :=
  match initCert cert key with
  | .error e => .error e
  | .ok (certData, keyData) =>
      .ok { organization := organization
            product := product
            certData := certData
            keyData := keyData
            baseUrl := baseUrl.getD NERVES_HUB_BASE_URL_DEFAULT
            caCertData := initCACert (caCert.getD bundledCACert) }

/-- `NervesHubAPI._get_env_b64` (client.py lines 93-99): try strict
base64 decoding of the environment value, fall back to the literal
bytes on a decode error. -/
def getEnvB64 (val : List Nat) : List Nat :=
  match b64decodeStrict val with
  | some decoded => decoded
  | none => val

/-- The environment variables read by `from_env`; byte-valued entries
hold the UTF-8 bytes of the variable. -/
structure Env where
  org : Option String
  product : Option String
  cert : Option (List Nat)
  key : Option (List Nat)
  baseUrl : Option String
  caCert : Option (List Nat)

/-- `NervesHubAPI.from_env` (client.py lines 70-91): requires org,
product, cert and key (a missing one raises KeyError); cert and key go
through `_get_env_b64` and the PEM loaders; the base URL and the CA
certificate are read with `os.environ.get` and passed to `__init__`
as-is — in particular the CA value is NOT passed through
`_get_env_b64`. -/
def fromEnv (e : Env) : Except PyError NervesHubAPI :=
  match e.org with
  | none => .error .keyError
  | some org =>
      match e.product with
      | none => .error .keyError
      | some product =>
          match e.cert with
          | none => .error .keyError
          | some certV =>
              match e.key with
              | none => .error .keyError
              | some keyV =>
                  let cert := loadPemX509Certificate (getEnvB64 certV)
                  let key := loadPemPrivateKey (getEnvB64 keyV)
                  init org product (some cert) (some key) e.baseUrl e.caCert

/-! ## client.py: request execution -/

/-- An HTTP response as the requests package presents it: status code,
status reason, the final URL, and the decoded JSON body (JSON parsing
is an external collaborator, so the body is carried already
decoded). -/
structure Response where
  statusCode : Nat
  reason : String
  url : String
  jsonBody : String
  deriving DecidableEq, Repr

/-- The message of a requests `HTTPError`, as built by
`Response.raise_for_status`: client-error wording for 4xx, server-error
wording for 5xx. -/
def httpErrorMsg (status : Nat) (reason u : String) : String :=
  if status < 500 then
    toString status ++ " Client Error: " ++ reason ++ " for url: " ++ u
  else
    toString status ++ " Server Error: " ++ reason ++ " for url: " ++ u

/-- `NervesHubAPI._raise_for_stats` (client.py lines 151-156) combined
with requests `Response.raise_for_status`: an HTTPError is raised
exactly for status codes 400-599, and is re-raised as a
`NervesHubAPIError` carrying the stringified HTTPError and the
response status code. Statuses below 400 (including 1xx and 3xx) and
above 599 do not raise. -/
def raiseForStats (resp : Response) : Except NervesHubAPIError Unit :=
  if 400 ≤ resp.statusCode ∧ resp.statusCode < 600 then
    .error ⟨httpErrorMsg resp.statusCode resp.reason resp.url, resp.statusCode⟩
  else
    .ok ()

/-- `NervesHubAPI._url` (client.py lines 144-146): base URL followed by
the path. -/
def url (c : NervesHubAPI) (path : String) : String :=
  c.baseUrl ++ path

/-- A value of the form-encoded request body dictionary: a Python str,
a Python bytes, or Python None. -/
inductive FormVal where
  | str (s : String)
  | bytes (b : List Nat)
  | pyNone
  deriving DecidableEq, Repr

/-- `NervesHubAPI._get` (client.py lines 158-162): perform the request
(transport external; the response is an input), raise for the status,
return the response. -/
def get (c : NervesHubAPI) (path : String) (resp : Response) :
    Except NervesHubAPIError Response :=
  match raiseForStats resp with
  | .error e => .error e
  | .ok _ => .ok resp

/-- `NervesHubAPI._post` (client.py lines 164-168): like `_get`, with a
form-encoded body. -/
def post (c : NervesHubAPI) (path : String) (data : List (String × FormVal))
    (resp : Response) : Except NervesHubAPIError Response :=
  match raiseForStats resp with
  | .error e => .error e
  | .ok _ => .ok resp

/-- `NervesHubAPI._delete` (client.py lines 170-174): like `_get` with
the DELETE method. -/
def delete (c : NervesHubAPI) (path : String) (resp : Response) :
    Except NervesHubAPIError Response :=
  match raiseForStats resp with
  | .error e => .error e
  | .ok _ => .ok resp

/-! ## client.py: paths and operations -/

/-- `NervesHubAPI._device_path` (client.py lines 176-180). -/
def devicePath (c : NervesHubAPI) (identifier : Option String) : String :=
  match identifier with
  | none => "/orgs/" ++ c.organization ++ "/products/" ++ c.product ++ "/devices"
  | some i => "/orgs/" ++ c.organization ++ "/products/" ++ c.product ++ "/devices" ++ "/" ++ i

/-- `NervesHubAPI._device_cert_path` (client.py lines 182-184). -/
def deviceCertPath (c : NervesHubAPI) (identifier : String) : String :=
  devicePath c (some identifier) ++ "/certificates"

/-- The form body built inside `device_create` (client.py lines
210-219): identifier, description (possibly Python None), and tags —
the empty string when `tags is None`, otherwise the tags joined with
commas. -/
def deviceCreateData (identifier : String) (description : Option String)
    (tags : Option (List String)) : List (String × FormVal) :=
  let tagStr : String :=
    match tags with
    | none => ""
    | some ts => String.intercalate "," ts
  [("identifier", FormVal.str identifier),
   ("description", (description.map FormVal.str).getD FormVal.pyNone),
   ("tags", FormVal.str tagStr)]

/-- `NervesHubAPI.device_list` (client.py lines 186-190). Every
operation is returned together with the (unchanged) client state, so
that state preservation is visible in the embedding. -/
def deviceList (c : NervesHubAPI) (resp : Response) :
    NervesHubAPI × Except NervesHubAPIError String :=
  (c, match get c (devicePath c none) resp with
      | .error e => .error e
      | .ok r => .ok r.jsonBody)

/-- `NervesHubAPI.device_create` (client.py lines 192-221). -/
def deviceCreate (c : NervesHubAPI) (identifier : String)
    (description : Option String) (tags : Option (List String))
    (resp : Response) : NervesHubAPI × Except NervesHubAPIError String :=
  (c, match post c (devicePath c none) (deviceCreateData identifier description tags) resp with
      | .error e => .error e
      | .ok r => .ok r.jsonBody)

/-- `NervesHubAPI.device_cert_create` (client.py lines 223-237): the
certificate bytes are base64-encoded in the body. -/
def deviceCertCreate (c : NervesHubAPI) (identifier : String) (cert : List Nat)
    (resp : Response) : NervesHubAPI × Except NervesHubAPIError String :=
  (c, match post c (deviceCertPath c identifier)
        [("identifier", FormVal.str identifier), ("cert", FormVal.bytes (b64encode cert))]
        resp with
      | .error e => .error e
      | .ok r => .ok r.jsonBody)

/-- `NervesHubAPI.device_cert_list` (client.py lines 239-250). -/
def deviceCertList (c : NervesHubAPI) (identifier : String) (resp : Response) :
    NervesHubAPI × Except NervesHubAPIError String :=
  (c, match get c (deviceCertPath c identifier) resp with
      | .error e => .error e
      | .ok r => .ok r.jsonBody)

/-- `NervesHubAPI.device_delete` (client.py lines 252-266): delete,
then report whether the status was 204. -/
def deviceDelete (c : NervesHubAPI) (identifier : String) (resp : Response) :
    NervesHubAPI × Except NervesHubAPIError Bool :=
  (c, match delete c (devicePath c (some identifier)) resp with
      | .error e => .error e
      | .ok r => .ok (r.statusCode == 204))

/-- A fixed concrete client instance used by witness and
counterexample statements. -/
def demoClient : NervesHubAPI :=
  { organization := "org"
    product := "prod"
    certData := [67]
    keyData := [75]
    baseUrl := "https://api.nerves-hub.org"
    caCertData := [65] }

/-! ## Helper lemmas -/

theorem b64val_b64chr : ∀ v : Nat, v < 64 → b64val (b64chr v) = some v := by decide

theorem b64chr_ne_pad : ∀ v : Nat, v < 64 → b64chr v ≠ 61 := by decide

/-- Strict decoding inverts encoding on genuine byte strings. -/
theorem b64decodeStrict_b64encode :
    ∀ p : List Nat, (∀ b ∈ p, b < 256) → b64decodeStrict (b64encode p) = some p
  | [], _ => rfl
  | [a], h => by
      have ha : a < 256 := h a (by simp)
      have e1 := b64val_b64chr (a / 4) (by omega)
      have e2 := b64val_b64chr (a % 4 * 16) (by omega)
      simp [b64encode, b64decodeStrict, e1, e2]
      omega
  | [a, b], h => by
      have ha : a < 256 := h a (by simp)
      have hb : b < 256 := h b (by simp)
      have e1 := b64val_b64chr (a / 4) (by omega)
      have e2 := b64val_b64chr (a % 4 * 16 + b / 16) (by omega)
      have e3 := b64val_b64chr (b % 16 * 4) (by omega)
      have ne3 := b64chr_ne_pad (b % 16 * 4) (by omega)
      simp [b64encode, b64decodeStrict, e1, e2, e3, ne3]
      constructor <;> omega
  | a :: b :: c :: rest, h => by
      have ha : a < 256 := h a (by simp)
      have hb : b < 256 := h b (by simp)
      have hc : c < 256 := h c (by simp)
      have ih := b64decodeStrict_b64encode rest (fun x hx => h x (by simp [hx]))
      have e1 := b64val_b64chr (a / 4) (by omega)
      have e2 := b64val_b64chr (a % 4 * 16 + b / 16) (by omega)
      have e3 := b64val_b64chr (b % 16 * 4 + c / 64) (by omega)
      have e4 := b64val_b64chr (c % 64) (by omega)
      have ne4 := b64chr_ne_pad (c % 64) (by omega)
      simp [b64encode, b64decodeStrict, e1, e2, e3, e4, ne4, ih]
      refine ⟨?_, ?_, ?_⟩ <;> omega

theorem raiseForStats_of_ge400 (resp : Response) (h1 : 400 ≤ resp.statusCode)
    (h2 : resp.statusCode < 600) :
    raiseForStats resp
      = .error ⟨httpErrorMsg resp.statusCode resp.reason resp.url, resp.statusCode⟩ := by
  simp [raiseForStats, h1, h2]

/-! ## Claims -/

/-- Claim C1 (amended): for every operation, a response whose status
code lies in 400-599 raises a NervesHubAPIError whose stored status
code equals the response status code exactly; the original claim said
this for every non-2xx status, but statuses below 400 (such as 304) do
not raise. -/
theorem c1_error_status_4xx_5xx (c : NervesHubAPI) (resp : Response) (id : String)
    (desc : Option String) (tags : Option (List String)) (cert : List Nat)
    (hlo : 400 ≤ resp.statusCode) (hhi : resp.statusCode < 600) :
    (∃ e, (deviceList c resp).2 = Except.error e ∧ e.statusCode = resp.statusCode) ∧
    (∃ e, (deviceCreate c id desc tags resp).2 = Except.error e ∧ e.statusCode = resp.statusCode) ∧
    (∃ e, (deviceCertCreate c id cert resp).2 = Except.error e ∧ e.statusCode = resp.statusCode) ∧
    (∃ e, (deviceCertList c id resp).2 = Except.error e ∧ e.statusCode = resp.statusCode) ∧
    (∃ e, (deviceDelete c id resp).2 = Except.error e ∧ e.statusCode = resp.statusCode) := by
  have hr := raiseForStats_of_ge400 resp hlo hhi
  refine ⟨⟨⟨httpErrorMsg resp.statusCode resp.reason resp.url, resp.statusCode⟩, ?_, rfl⟩,
          ⟨⟨httpErrorMsg resp.statusCode resp.reason resp.url, resp.statusCode⟩, ?_, rfl⟩,
          ⟨⟨httpErrorMsg resp.statusCode resp.reason resp.url, resp.statusCode⟩, ?_, rfl⟩,
          ⟨⟨httpErrorMsg resp.statusCode resp.reason resp.url, resp.statusCode⟩, ?_, rfl⟩,
          ⟨⟨httpErrorMsg resp.statusCode resp.reason resp.url, resp.statusCode⟩, ?_, rfl⟩⟩ <;>
    simp [deviceList, deviceCreate, deviceCertCreate, deviceCertList, deviceDelete,
          get, post, delete, hr]

/-- Witness for C1 at status 404. -/
theorem c1_witness :
    (∃ e, (deviceList demoClient
        { statusCode := 404, reason := "Not Found", url := "u", jsonBody := "e" }).2
        = Except.error e ∧ e.statusCode = 404) ∧
    (∃ e, (deviceCreate demoClient "dev" none none
        { statusCode := 404, reason := "Not Found", url := "u", jsonBody := "e" }).2
        = Except.error e ∧ e.statusCode = 404) ∧
    (∃ e, (deviceCertCreate demoClient "dev" []
        { statusCode := 404, reason := "Not Found", url := "u", jsonBody := "e" }).2
        = Except.error e ∧ e.statusCode = 404) ∧
    (∃ e, (deviceCertList demoClient "dev"
        { statusCode := 404, reason := "Not Found", url := "u", jsonBody := "e" }).2
        = Except.error e ∧ e.statusCode = 404) ∧
    (∃ e, (deviceDelete demoClient "dev"
        { statusCode := 404, reason := "Not Found", url := "u", jsonBody := "e" }).2
        = Except.error e ∧ e.statusCode = 404) :=
  c1_error_status_4xx_5xx demoClient
    { statusCode := 404, reason := "Not Found", url := "u", jsonBody := "e" }
    "dev" none none [] (by decide) (by decide)

/-- Counterexample for C1 as stated: a 304 response is not in the 2xx
range, yet device_list raises nothing and returns the decoded body. -/
theorem c1_counterexample_304 :
    (¬ (200 ≤ (304 : Nat) ∧ (304 : Nat) ≤ 299)) ∧
    (deviceList demoClient
        { statusCode := 304, reason := "Not Modified", url := "u", jsonBody := "body" }).2
      = Except.ok "body" :=
  ⟨by decide, rfl⟩

/-- Claim C2 (code divergence evidence): constructing from the
environment with the non-default base URL https://api.example.org and
no NERVES_HUB_CA_CERT does not fail with a configuration error; the
client is silently created with the bundled default CA. -/
theorem c2_selfHosted_noCA_uses_bundled :
    ("https://api.example.org" ≠ NERVES_HUB_BASE_URL_DEFAULT) ∧
    fromEnv { org := some "org", product := some "prod", cert := some [45], key := some [95],
              baseUrl := some "https://api.example.org", caCert := none }
      = Except.ok { organization := "org", product := "prod", certData := [45], keyData := [95],
                    baseUrl := "https://api.example.org", caCertData := bundledCACert } :=
  ⟨by decide, rfl⟩

/-- Claim C3: for a PEM byte string that is not itself valid strict
base64, the environment normalization yields the same bytes whether it
is given the base64 encoding of the value or the raw value. -/
theorem c3_getEnvB64_normalizes (p : List Nat) (hbytes : ∀ b ∈ p, b < 256)
    (hnotb64 : b64decodeStrict p = none) :
    getEnvB64 (b64encode p) = p ∧ getEnvB64 p = p := by
  constructor
  · unfold getEnvB64
    rw [b64decodeStrict_b64encode p hbytes]
  · unfold getEnvB64
    rw [hnotb64]

/-- Witness for C3 on the byte string of five dash characters, which
is not valid strict base64. -/
theorem c3_witness :
    (∀ b ∈ ([45, 45, 45, 45, 45] : List Nat), b < 256) ∧
    b64decodeStrict [45, 45, 45, 45, 45] = none ∧
    (getEnvB64 (b64encode [45, 45, 45, 45, 45]) = [45, 45, 45, 45, 45] ∧
      getEnvB64 [45, 45, 45, 45, 45] = [45, 45, 45, 45, 45]) :=
  ⟨by decide, by decide, c3_getEnvB64_normalizes _ (by decide) (by decide)⟩

/-- Claim C4 (code divergence evidence): the NERVES_HUB_CA_CERT value
is not passed through the strict-base64-then-literal normalization:
giving the base64 encoding of the bytes 65 66 67 (the string QUJD)
stores the literal four base64 characters as the trust anchor, while
the normalization used for cert and key would have produced 65 66
67. -/
theorem c4_caCert_not_normalized :
    getEnvB64 [81, 85, 74, 68] = [65, 66, 67] ∧
    fromEnv { org := some "org", product := some "prod", cert := some [45], key := some [95],
              baseUrl := some "https://api.example.org", caCert := some [81, 85, 74, 68] }
      = Except.ok { organization := "org", product := "prod", certData := [45], keyData := [95],
                    baseUrl := "https://api.example.org", caCertData := [81, 85, 74, 68] } :=
  ⟨by decide, rfl⟩

/-- Claim C5: the device path is /orgs/ org /products/ product
/devices, with the identifier segment appended only when an identifier
is given; the device certificate path appends /certificates to the
identified device path; the full URL is the base URL followed by the
path. -/
theorem c5_path_composition (c : NervesHubAPI) (id p : String) :
    devicePath c none = "/orgs/" ++ c.organization ++ "/products/" ++ c.product ++ "/devices" ∧
    devicePath c (some id) = devicePath c none ++ "/" ++ id ∧
    deviceCertPath c id = devicePath c (some id) ++ "/certificates" ∧
    url c p = c.baseUrl ++ p :=
  ⟨rfl, rfl, rfl, rfl⟩

/-- Claim C6: device_delete yields true exactly for a 204 response;
any other status yields false or raises, and never yields true. -/
theorem c6_delete_true_iff_204 (c : NervesHubAPI) (id : String) (resp : Response) :
    (deviceDelete c id resp).2 = Except.ok true ↔ resp.statusCode = 204 := by
  by_cases h : 400 ≤ resp.statusCode ∧ resp.statusCode < 600
  · simp only [deviceDelete, delete, raiseForStats, if_pos h]
    constructor
    · intro hx
      cases hx
    · intro hx
      omega
  · simp [deviceDelete, delete, raiseForStats, h]

/-- Claim C7 (amended): construction supports only the
certificate-plus-key credential mode; supplying None for the
certificate (alone or together with the key) fails before any network
activity with an attribute error, not a configuration error, and
supplying both certificate and key constructs the client with no
exactly-one-mode validation. -/
theorem c7_certKey_only_mode (org prod : String) (c : X509Certificate) (k : PrivateKey)
    (bu : Option String) (ca : List Nat) :
    init org prod none none bu (some ca) = Except.error PyError.attributeError ∧
    init org prod (some c) none bu (some ca) = Except.error PyError.attributeError ∧
    init org prod (some c) (some k) bu (some ca)
      = Except.ok { organization := org, product := prod, certData := c.publicBytes,
                    keyData := k.privateBytes, baseUrl := bu.getD NERVES_HUB_BASE_URL_DEFAULT,
                    caCertData := ca } :=
  ⟨rfl, rfl, rfl⟩

/-- Counterexample for C7 as stated: constructing with neither
credential (None certificate and None key) raises an attribute error,
which is not a configuration error. -/
theorem c7_counterexample :
    init "o" "p" none none none (some [66]) = Except.error PyError.attributeError ∧
    PyError.attributeError ≠ PyError.configurationError :=
  ⟨rfl, by decide⟩

/-- Claim C8: device_create with tags = None serializes the tags field
as the empty string (the field is present), and with a tags list as
the comma-joined elements. -/
theorem c8_tags_serialization (id : String) (desc : Option String) (ts : List String) :
    List.lookup "tags" (deviceCreateData id desc none) = some (FormVal.str "") ∧
    List.lookup "tags" (deviceCreateData id desc (some ts))
      = some (FormVal.str (String.intercalate "," ts)) :=
  ⟨rfl, rfl⟩

/-- Claim C9: every operation leaves the client state (organization,
product, base URL, credential and trust-anchor material) unchanged. -/
theorem c9_state_immutable (c : NervesHubAPI) (resp : Response) (id : String)
    (desc : Option String) (tags : Option (List String)) (cert : List Nat) :
    (deviceList c resp).1 = c ∧
    (deviceCreate c id desc tags resp).1 = c ∧
    (deviceCertCreate c id cert resp).1 = c ∧
    (deviceCertList c id resp).1 = c ∧
    (deviceDelete c id resp).1 = c :=
  ⟨rfl, rfl, rfl, rfl, rfl⟩

/-- Claim C10: NervesHubAPIError is a direct subclass of BaseException
and not of Exception, so an except clause for Exception does not catch
it while clauses for BaseException or the error class itself do. -/
theorem c10_not_caught_by_exception :
    exceptClauseCatches PyClass.pyException PyClass.nervesHubAPIError = false ∧
    exceptClauseCatches PyClass.baseException PyClass.nervesHubAPIError = true ∧
    exceptClauseCatches PyClass.nervesHubAPIError PyClass.nervesHubAPIError = true := by
  decide

end NervesHub
